import Mathlib

/-!
Verification of the octodash status-aggregation engine.

The Go sources are shallowly embedded: each upstream HTTP endpoint is
modelled by the response it yields during one poll cycle (a failed round
trip is an `Except.error` carrying the Go error string), float64 values
are modelled as rationals (the engine only copies them), and the
channel-based fan-out of `handleStatus` is modelled by an explicit
arrival order (a permutation of the printer indices).  Every upstream
round trip a pipeline performs is recorded in a call trace so that
"fetch was not attempted" claims are expressible.
-/

namespace Octodash

/-- float64 values carried through the pipeline; the engine never computes
with them, it only copies them between records. -/
abbrev F := Rat

/-- Go's int(float64) conversion truncates toward zero; on rationals this is
T-division of numerator by denominator. -/
def goInt (x : F) : Int :=
  Int.tdiv x.num x.den

/-! ### Go string helpers (package strings) -/

/-- strings.HasSuffix s suffix. -/
def hasSuffix (s suffix : String) : Bool :=
  suffix.data.isSuffixOf s.data

/-- strings.TrimSuffix s suffix: drops the suffix when present, otherwise
returns s unchanged. -/
def trimSuffix (s suffix : String) : String :=
  if hasSuffix s suffix then ⟨s.data.take (s.data.length - suffix.data.length)⟩ else s

/-! ### package config (fields as used by the handler) -/

/-- config.Printer: one configured printer. -/
structure Printer where
  id : String
  name : String
  octoPrintURL : String
  apiKey : String
deriving DecidableEq

/-! ### package octoprint -/

/-- octoprint.PrinterState.Flags. -/
structure Flags where
  operational : Bool
  paused : Bool
  printing : Bool
  error : Bool
  ready : Bool
deriving DecidableEq

/-- octoprint.PrinterState. -/
structure PrinterState where
  text : String
  flags : Flags
deriving DecidableEq

/-- octoprint.TemperatureData. -/
structure TemperatureData where
  actual : F
  target : F
deriving DecidableEq

/-- The temperature object of octoprint.PrinterResponse. -/
structure TemperatureBlock where
  bed : TemperatureData
  tool0 : TemperatureData
deriving DecidableEq

/-- octoprint.PrinterResponse. -/
structure PrinterResponse where
  state : PrinterState
  temperature : TemperatureBlock
deriving DecidableEq

/-- The file object of octoprint.JobResponse. -/
structure JobFile where
  name : String
  size : Int
  date : Int
  path : String
  display : String
deriving DecidableEq

/-- The filament.tool0 object of octoprint.JobResponse. -/
structure FilamentTool where
  length : F
  volume : F
deriving DecidableEq

/-- The filament object of octoprint.JobResponse. -/
structure JobFilament where
  tool0 : FilamentTool
deriving DecidableEq

/-- The job object of octoprint.JobResponse. -/
structure JobDetails where
  file : JobFile
  estimatedPrintTime : F
  lastPrintTime : F
  filament : JobFilament
deriving DecidableEq

/-- The progress object of octoprint.JobResponse. -/
structure JobProgress where
  completion : F
  filepos : Int
  printTime : Int
  printTimeLeft : Int
  printTimeOrigin : String
deriving DecidableEq

/-- octoprint.JobResponse. -/
structure JobResponse where
  job : JobDetails
  progress : JobProgress
  state : String
deriving DecidableEq

/-- The wire response of the spoolman_api plugin endpoint decoded by
GetCurrentSpool. -/
structure SpoolApiResponse where
  success : Bool
  spoolID : String
  error : String
deriving DecidableEq

/-- octoprint.Client: the base URL and API key together with the upstream's
response to each endpoint during one poll cycle.  Each Go call performs
exactly one round trip, so one fixed response per endpoint per cycle is the
faithful model; an `Except.error` is the Go error string of a failed round
trip (transport failure, non-success HTTP status, or decode failure). -/
structure Client where
  baseURL : String
  apiKey : String
  printerEndpoint : Except String PrinterResponse
  jobEndpoint : Except String JobResponse
  spoolmanApiEndpoint : Nat → Except String SpoolApiResponse

/-- Client.GetPrinterState: GET /api/printer. -/
def Client.GetPrinterState (c : Client) : Except String PrinterResponse :=
  c.printerEndpoint

/-- Client.GetJob: GET /api/job. -/
def Client.GetJob (c : Client) : Except String JobResponse :=
  c.jobEndpoint

/-- Client.GetCurrentSpool: POST /api/plugin/spoolman_api with the
get_current_spool command; an unsuccessful plugin response is turned into
an error. -/
def Client.GetCurrentSpool (c : Client) (tool : Nat) : Except String String :=
  match c.spoolmanApiEndpoint tool with
  | .error e => .error e
  | .ok response =>
    if !response.success then
      .error ("API error: " ++ response.error)
    else
      .ok response.spoolID

/-- Client.GetThumbnail: pure derivation of the slicer-thumbnail URL from a
job file path (no network call). -/
def Client.GetThumbnail (c : Client) (path : String) : String :=
  if path = "" then
    ""
  else
    let fileName := path
    let fileName := trimSuffix fileName (".gcode")
    let fileName := trimSuffix fileName (".bgcode")
    c.baseURL ++ "/plugin/prusaslicerthumbnails/thumbnail/" ++ fileName ++ ".png"

/-! ### package spoolman (not under src/) -/

/-- Modelled from the spec: the spoolman package is not under src/.  A
parsed inventory-service spool record (spec §3 RawSpoolInfo: name,
material, vendor, color, total/used/remaining weight). -/
structure Spool where
  name : String
  material : String
  vendor : String
  color : String
  weight : F
  used : F
  remaining : F
deriving DecidableEq

/-- A value of the opaque key/value output mapping. -/
inductive SpoolVal
  | str (s : String)
  | num (x : F)
deriving DecidableEq

/-- Modelled from the spec: spoolman.FormatSpoolInfo converts the typed
spool record to the opaque key/value mapping at the normalization boundary
(spec §4.2, §9); no claim inspects its contents, only its presence. -/
def FormatSpoolInfo (s : Spool) : List (String × SpoolVal) :=
  [("name", .str s.name), ("material", .str s.material),
   ("vendor", .str s.vendor), ("color", .str s.color),
   ("weight", .num s.weight), ("used", .num s.used),
   ("remaining", .num s.remaining)]

/-- Modelled from the spec: spoolman.Client, reduced to the inventory
service's response per spool identifier during one cycle; `Except.ok none`
models a nil spool returned with a nil error. -/
structure SpoolmanClient where
  spoolEndpoint : String → Except String (Option Spool)

/-- SpoolmanClient.GetSpool: resolve a spool identifier. -/
def SpoolmanClient.GetSpool (c : SpoolmanClient) (spoolID : String) :
    Except String (Option Spool) :=
  c.spoolEndpoint spoolID

/-! ### package models -/

/-- models.ProgressInfo. -/
structure ProgressInfo where
  completion : F
  printTime : Int
  printTimeLeft : Int
  estimatedTotal : Int
  fileName : String
  filamentLength : F
deriving DecidableEq

/-- models.TemperatureInfo. -/
structure TemperatureInfo where
  bedActual : F
  bedTarget : F
  hotendActual : F
  hotendTarget : F
deriving DecidableEq

/-- models.PrinterStatus: the canonical per-printer record.  Go's nil
pointers / omitted fields are `none`, Go's zero-valued strings are `""`. -/
structure PrinterStatus where
  id : String
  name : String
  octoPrintURL : String
  status : String
  state : String
  progress : Option ProgressInfo
  temperatures : Option TemperatureInfo
  currentSpool : Option (List (String × SpoolVal))
  thumbnailURL : String
  error : String
deriving DecidableEq

/-! ### package handlers -/

/-- One upstream round trip performed while building a printer's record. -/
inductive UpstreamCall
  | getPrinterState
  | getJob
  | getCurrentSpool (tool : Nat)
  | getSpool (spoolID : String)
deriving DecidableEq

/-- handlers.Handler: the configured printers in configuration order, the
per-printer-id OctoPrint client map, and the spoolman client. -/
structure Handler where
  printers : List Printer
  octoprintClients : String → Option Client
  spoolmanClient : SpoolmanClient

/-- The status-classification policy of fetchPrinterStatus (the if-chain on
the raw flags; the record starts out "offline" and is only overwritten by a
matching flag). -/
def classifyStatus (flags : Flags) : String :=
  if flags.printing then "printing"
  else if flags.ready then "idle"
  else if flags.error then "error"
  else "offline"

/-- The job block of fetchPrinterStatus: if the classified status is
"printing", fetch job info; on success populate the progress block and (for
a non-empty file path) the thumbnail URL; on failure leave the record as it
is.  The second component records the round trips made. -/
def jobStep (client : Client) (status : PrinterStatus) :
    PrinterStatus × List UpstreamCall :=
  if status.status = "printing" then
    match client.GetJob with
    | .ok jobResp =>
      let status := { status with
        progress := some
          { completion := jobResp.progress.completion
            printTime := jobResp.progress.printTime
            printTimeLeft := jobResp.progress.printTimeLeft
            estimatedTotal := goInt jobResp.job.estimatedPrintTime
            fileName := jobResp.job.file.display
            filamentLength := jobResp.job.filament.tool0.length } }
      let status :=
        if jobResp.job.file.path ≠ "" then
          { status with thumbnailURL := client.GetThumbnail jobResp.job.file.path }
        else status
      (status, [UpstreamCall.getJob])
    | .error _ => (status, [UpstreamCall.getJob])
  else (status, [])

/-- The spool block of fetchPrinterStatus: always fetch the current spool
identifier for tool 0; when it succeeds with a non-empty identifier, look
it up in the inventory service; only a successful lookup of a non-nil spool
populates the spool block.  The second component records the round trips
made. -/
def spoolStep (h : Handler) (client : Client) (status : PrinterStatus) :
    PrinterStatus × List UpstreamCall :=
  match client.GetCurrentSpool 0 with
  | .ok spoolID =>
    if spoolID ≠ "" then
      match h.spoolmanClient.GetSpool spoolID with
      | .ok (some spool) =>
        ({ status with currentSpool := some (FormatSpoolInfo spool) },
         [UpstreamCall.getCurrentSpool 0, UpstreamCall.getSpool spoolID])
      | .ok none =>
        (status, [UpstreamCall.getCurrentSpool 0, UpstreamCall.getSpool spoolID])
      | .error _ =>
        (status, [UpstreamCall.getCurrentSpool 0, UpstreamCall.getSpool spoolID])
    else (status, [UpstreamCall.getCurrentSpool 0])
  | .error _ => (status, [UpstreamCall.getCurrentSpool 0])

/-- Handler.fetchPrinterStatus: build the record for one printer, together
with the trace of upstream round trips performed. -/
def fetchPrinterStatus (h : Handler) (printer : Printer) :
    PrinterStatus × List UpstreamCall :=
  let status : PrinterStatus :=
    { id := printer.id
      name := printer.name
      octoPrintURL := printer.octoPrintURL
      status := "offline"
      state := ""
      progress := none
      temperatures := none
      currentSpool := none
      thumbnailURL := ""
      error := "" }
  match h.octoprintClients printer.id with
  | none => ({ status with error := "No client configured" }, [])
  | some client =>
    match client.GetPrinterState with
    | .error e => ({ status with error := e }, [UpstreamCall.getPrinterState])
    | .ok printerResp =>
      let status := { status with
        status := classifyStatus printerResp.state.flags
        state := printerResp.state.text
        temperatures := some
          { bedActual := printerResp.temperature.bed.actual
            bedTarget := printerResp.temperature.bed.target
            hotendActual := printerResp.temperature.tool0.actual
            hotendTarget := printerResp.temperature.tool0.target } }
      let js := jobStep client status
      let ss := spoolStep h client js.1
      (ss.1, UpstreamCall.getPrinterState :: (js.2 ++ ss.2))

/-- Handler.handleStatus (the /api/status aggregation, "Poll"): one
goroutine per configured printer sends its record on a shared channel; the
response list is built in channel-arrival order.  `arrival` is the order in
which the sends are received: a permutation of the printer indices. -/
def handleStatus (h : Handler) (arrival : List Nat) : List PrinterStatus :=
  arrival.filterMap fun i => (h.printers[i]?).map fun p => (fetchPrinterStatus h p).1

/-- The snapshot in configuration order: one record per configured printer,
in the order of the configuration. -/
def configSnapshot (h : Handler) : List PrinterStatus :=
  h.printers.map fun p => (fetchPrinterStatus h p).1

/-- The fields of a record other than the spool block, bundled for frame
statements. -/
def nonSpoolView (s : PrinterStatus) :
    String × String × String × String × String × Option ProgressInfo ×
      Option TemperatureInfo × String × String :=
  (s.id, s.name, s.octoPrintURL, s.status, s.state, s.progress,
   s.temperatures, s.thumbnailURL, s.error)

/-- The fields of a record other than the progress block and thumbnail URL,
bundled for frame statements about the job step. -/
def nonJobView (s : PrinterStatus) :
    String × String × String × String × String × Option TemperatureInfo ×
      Option (List (String × SpoolVal)) × String :=
  (s.id, s.name, s.octoPrintURL, s.status, s.state, s.temperatures,
   s.currentSpool, s.error)

/-- Thumbnail derivation as the spec words it: strip a single trailing
".gcode" or ".bgcode" extension and substitute the template (empty path
yields the empty URL). -/
def specThumbnail (c : Client) (path : String) : String :=
  if path = "" then
    ""
  else
    c.baseURL ++ "/plugin/prusaslicerthumbnails/thumbnail/" ++
      (if hasSuffix path (".gcode") then trimSuffix path (".gcode")
       else trimSuffix path (".bgcode")) ++ ".png"

/-- The record of a printer right after a successful state fetch, before the
job and spool steps (classification applied, state text and temperatures
copied); used to state how fetchPrinterStatus decomposes. -/
def statusAfterState (printer : Printer) (resp : PrinterResponse) : PrinterStatus :=
  { id := printer.id
    name := printer.name
    octoPrintURL := printer.octoPrintURL
    status := classifyStatus resp.state.flags
    state := resp.state.text
    progress := none
    temperatures := some
      { bedActual := resp.temperature.bed.actual
        bedTarget := resp.temperature.bed.target
        hotendActual := resp.temperature.tool0.actual
        hotendTarget := resp.temperature.tool0.target }
    currentSpool := none
    thumbnailURL := ""
    error := "" }

/-- The record produced without reaching any upstream: the configured
identity, an "offline" status and an error message. -/
def offlineRecord (printer : Printer) (e : String) : PrinterStatus :=
  { id := printer.id
    name := printer.name
    octoPrintURL := printer.octoPrintURL
    status := "offline"
    state := ""
    progress := none
    temperatures := none
    currentSpool := none
    thumbnailURL := ""
    error := e }

/-! ### Concrete fixtures for witnesses and counterexamples -/

/-- A response with the printer idle and all temperatures zero. -/
def respIdle : PrinterResponse :=
  { state := { text := "Operational", flags :=
      { operational := true, paused := false, printing := false,
        error := false, ready := true } }
    temperature := { bed := { actual := 0, target := 0 },
                     tool0 := { actual := 0, target := 0 } } }

/-- A response with the printer printing. -/
def respPrinting : PrinterResponse :=
  { state := { text := "Printing", flags :=
      { operational := true, paused := false, printing := true,
        error := false, ready := false } }
    temperature := { bed := { actual := 60, target := 60 },
                     tool0 := { actual := 215, target := 215 } } }

/-- A client whose mandatory state fetch fails. -/
def clientDown : Client :=
  { baseURL := "http://printer-a"
    apiKey := "k"
    printerEndpoint := .error "connection refused"
    jobEndpoint := .error "connection refused"
    spoolmanApiEndpoint := fun _ => .error "connection refused" }

/-- A client that is printing but whose job fetch fails; the spool plugin
reports no active spool. -/
def clientJobDown : Client :=
  { baseURL := "http://printer-b"
    apiKey := "k"
    printerEndpoint := .ok respPrinting
    jobEndpoint := .error "HTTP 500: job unavailable"
    spoolmanApiEndpoint := fun _ => .ok { success := true, spoolID := "", error := "" } }

/-- An idle client whose spool plugin reports no active spool. -/
def clientIdle : Client :=
  { baseURL := "http://printer-c"
    apiKey := "k"
    printerEndpoint := .ok respIdle
    jobEndpoint := .error "HTTP 409: not printing"
    spoolmanApiEndpoint := fun _ => .ok { success := true, spoolID := "", error := "" } }

/-- An inventory service that fails every lookup. -/
def spoolmanDown : SpoolmanClient :=
  { spoolEndpoint := fun _ => .error "connection refused" }

/-- Two configured printers with distinct identities. -/
def printerA : Printer :=
  { id := "mk4-a", name := "Printer A", octoPrintURL := "http://printer-a", apiKey := "k" }

/-- Second configured printer. -/
def printerB : Printer :=
  { id := "mk4-b", name := "Printer B", octoPrintURL := "http://printer-b", apiKey := "k" }

/-- A handler with two configured printers and no client mapping at all:
both records are produced with the "No client configured" error. -/
def hTwo : Handler :=
  { printers := [printerA, printerB]
    octoprintClients := fun _ => none
    spoolmanClient := spoolmanDown }

/-- A handler with one configured printer whose id has no client mapping. -/
def hMissing : Handler :=
  { printers := [{ id := "ghost", name := "Ghost", octoPrintURL := "http://ghost", apiKey := "k" }]
    octoprintClients := fun _ => none
    spoolmanClient := spoolmanDown }

/-- A handler whose single printer has a client whose state fetch fails. -/
def hDown : Handler :=
  { printers := [printerA]
    octoprintClients := fun i => if i = "mk4-a" then some clientDown else none
    spoolmanClient := spoolmanDown }

/-- A handler whose single printer is printing but whose job fetch fails. -/
def hJobDown : Handler :=
  { printers := [printerB]
    octoprintClients := fun i => if i = "mk4-b" then some clientJobDown else none
    spoolmanClient := spoolmanDown }

/-- Third configured printer. -/
def printerC : Printer :=
  { id := "mk4-c", name := "Printer C", octoPrintURL := "http://printer-c", apiKey := "k" }

/-- A handler whose single printer is idle with no active spool. -/
def hIdle : Handler :=
  { printers := [printerC]
    octoprintClients := fun i => if i = "mk4-c" then some clientIdle else none
    spoolmanClient := spoolmanDown }

/-- A client whose spool plugin answers with success=false. -/
def clientSpoolFalse : Client :=
  { baseURL := "http://printer-c"
    apiKey := "k"
    printerEndpoint := .ok respIdle
    jobEndpoint := .error "HTTP 409: not printing"
    spoolmanApiEndpoint := fun _ =>
      .ok { success := false, spoolID := "", error := "spool not set" } }

/-- A concrete inventory spool. -/
def spoolSeven : Spool :=
  { name := "PLA Red", material := "PLA", vendor := "V", color := "#ff0000",
    weight := 1000, used := 250, remaining := 750 }

/-- Like clientIdle, but with an active spool identifier reported. -/
def clientIdleSpoolOk : Client :=
  { baseURL := "http://printer-c"
    apiKey := "k"
    printerEndpoint := .ok respIdle
    jobEndpoint := .error "HTTP 409: not printing"
    spoolmanApiEndpoint := fun _ => .ok { success := true, spoolID := "7", error := "" } }

/-- An inventory service that resolves spool "7". -/
def spoolmanOk : SpoolmanClient :=
  { spoolEndpoint := fun sid => if sid = "7" then .ok (some spoolSeven) else .ok none }

/-- Like hIdle, but with the spool steps succeeding. -/
def hIdleSpool : Handler :=
  { printers := [printerC]
    octoprintClients := fun i => if i = "mk4-c" then some clientIdleSpoolOk else none
    spoolmanClient := spoolmanOk }

/-! ### Helper lemmas: string suffix stripping -/

theorem hasSuffix_true_iff (s suffix : String) :
    hasSuffix s suffix = true ↔ ∃ t, s.data = t ++ suffix.data := by
  rw [hasSuffix, List.isSuffixOf_iff_suffix]
  constructor
  · rintro ⟨t, ht⟩
    exact ⟨t, ht.symm⟩
  · rintro ⟨t, ht⟩
    exact ⟨t, ht.symm⟩

theorem trimSuffix_of_append (t : List Char) (suffix s : String)
    (hs : s.data = t ++ suffix.data) : trimSuffix s suffix = ⟨t⟩ := by
  have hsuf : hasSuffix s suffix = true :=
    (hasSuffix_true_iff s suffix).2 ⟨t, hs⟩
  rw [trimSuffix, if_pos hsuf, hs]
  congr 1
  rw [List.length_append, Nat.add_sub_cancel, List.take_left]

theorem trimSuffix_of_not_suffix (s suffix : String)
    (hns : hasSuffix s suffix = false) : trimSuffix s suffix = s := by
  rw [trimSuffix, if_neg]
  simp [hns]

/-! ### Helper lemmas: the classification policy -/

theorem classifyStatus_eq_printing_iff (f : Flags) :
    classifyStatus f = "printing" ↔ f.printing = true := by
  rcases f with ⟨op, pa, pr, er, re⟩
  cases pr <;> cases re <;> cases er <;> simp [classifyStatus]

/-! ### Helper lemmas: the job step -/

theorem jobStep_nonJobView (client : Client) (s : PrinterStatus) :
    nonJobView (jobStep client s).1 = nonJobView s := by
  rw [jobStep]
  split
  · cases hj : client.GetJob with
    | error e => rfl
    | ok jobResp =>
      simp only []
      split <;> rfl
  · rfl

theorem jobStep_of_not_printing (client : Client) (s : PrinterStatus)
    (hs : s.status ≠ "printing") : jobStep client s = (s, []) := by
  rw [jobStep, if_neg hs]

theorem jobStep_of_error (client : Client) (s : PrinterStatus) (e : String)
    (hs : s.status = "printing") (hj : client.GetJob = .error e) :
    jobStep client s = (s, [UpstreamCall.getJob]) := by
  rw [jobStep, if_pos hs, hj]

theorem jobStep_calls_shape (client : Client) (s : PrinterStatus) :
    (jobStep client s).2 = [] ∨ (jobStep client s).2 = [UpstreamCall.getJob] := by
  rw [jobStep]
  split
  · cases hj : client.GetJob with
    | error e => exact Or.inr rfl
    | ok jobResp => simp
  · exact Or.inl rfl

theorem status_printing_of_getJob_mem (client : Client) (s : PrinterStatus)
    (hmem : UpstreamCall.getJob ∈ (jobStep client s).2) :
    s.status = "printing" := by
  by_contra hs
  rw [jobStep_of_not_printing client s hs] at hmem
  simp at hmem

/-! ### Helper lemmas: the spool step -/

theorem spoolStep_nonSpoolView (h : Handler) (client : Client) (s : PrinterStatus) :
    nonSpoolView (spoolStep h client s).1 = nonSpoolView s := by
  rw [spoolStep]
  cases hcs : client.GetCurrentSpool 0 with
  | error e => rfl
  | ok spoolID =>
    simp only []
    split
    · cases hsp : h.spoolmanClient.GetSpool spoolID with
      | error e => rfl
      | ok os => cases os <;> rfl
    · rfl

theorem getCurrentSpool_mem_spoolStep (h : Handler) (client : Client) (s : PrinterStatus) :
    UpstreamCall.getCurrentSpool 0 ∈ (spoolStep h client s).2 := by
  rw [spoolStep]
  cases hcs : client.GetCurrentSpool 0 with
  | error e => simp
  | ok spoolID =>
    simp only []
    split
    · cases hsp : h.spoolmanClient.GetSpool spoolID with
      | error e => simp
      | ok os => cases os <;> simp
    · simp

theorem spoolStep_calls_shape (h : Handler) (client : Client) (s : PrinterStatus) :
    (spoolStep h client s).2 = [UpstreamCall.getCurrentSpool 0] ∨
      ∃ sid, (spoolStep h client s).2 =
        [UpstreamCall.getCurrentSpool 0, UpstreamCall.getSpool sid] := by
  rw [spoolStep]
  cases hcs : client.GetCurrentSpool 0 with
  | error e => exact Or.inl rfl
  | ok spoolID =>
    simp only []
    split
    · cases hsp : h.spoolmanClient.GetSpool spoolID with
      | error e => exact Or.inr ⟨spoolID, rfl⟩
      | ok os => cases os <;> exact Or.inr ⟨spoolID, rfl⟩
    · exact Or.inl rfl

theorem spoolStep_of_error (h : Handler) (client : Client) (s : PrinterStatus) (e : String)
    (hcs : client.GetCurrentSpool 0 = .error e) :
    spoolStep h client s = (s, [UpstreamCall.getCurrentSpool 0]) := by
  rw [spoolStep, hcs]

theorem spoolStep_of_empty_id (h : Handler) (client : Client) (s : PrinterStatus)
    (hcs : client.GetCurrentSpool 0 = .ok "") :
    spoolStep h client s = (s, [UpstreamCall.getCurrentSpool 0]) := by
  rw [spoolStep, hcs]
  simp

theorem spoolStep_of_lookup_failure (h : Handler) (client : Client) (s : PrinterStatus)
    (sid : String) (hcs : client.GetCurrentSpool 0 = .ok sid) (hne : sid ≠ "")
    (hl : ∀ sp, h.spoolmanClient.GetSpool sid ≠ .ok (some sp)) :
    (spoolStep h client s).1 = s := by
  rw [spoolStep, hcs]
  simp only [if_pos hne]
  cases hsp : h.spoolmanClient.GetSpool sid with
  | error e => rfl
  | ok os =>
    cases os with
    | none => rfl
    | some sp => exact absurd hsp (hl sp)

/-! ### Helper lemmas: decomposing fetchPrinterStatus -/

theorem fetchPrinterStatus_of_no_client (h : Handler) (p : Printer)
    (hc : h.octoprintClients p.id = none) :
    fetchPrinterStatus h p = (offlineRecord p ("No client configured"), []) := by
  rw [fetchPrinterStatus, hc]
  rfl

theorem fetchPrinterStatus_of_state_error (h : Handler) (p : Printer) (client : Client)
    (e : String) (hc : h.octoprintClients p.id = some client)
    (he : client.GetPrinterState = .error e) :
    fetchPrinterStatus h p = (offlineRecord p e, [UpstreamCall.getPrinterState]) := by
  rw [fetchPrinterStatus, hc]
  simp only []
  rw [he]
  rfl

theorem fetchPrinterStatus_of_state_ok (h : Handler) (p : Printer) (client : Client)
    (resp : PrinterResponse) (hc : h.octoprintClients p.id = some client)
    (he : client.GetPrinterState = .ok resp) :
    fetchPrinterStatus h p =
      ((spoolStep h client (jobStep client (statusAfterState p resp)).1).1,
       UpstreamCall.getPrinterState ::
         ((jobStep client (statusAfterState p resp)).2 ++
          (spoolStep h client (jobStep client (statusAfterState p resp)).1).2)) := by
  rw [fetchPrinterStatus, hc]
  simp only []
  rw [he]
  rfl

/-! ### Helper lemmas: collecting in arrival order -/

theorem filterMap_getElem_range {α β : Type} (l : List α) (g : α → β) :
    (List.range l.length).filterMap (fun i => (l[i]?).map g) = l.map g := by
  induction l with
  | nil => rfl
  | cons x xs ih =>
    have hcomp : ((fun i => ((x :: xs)[i]?).map g) ∘ Nat.succ) =
        fun i => (xs[i]?).map g := by
      funext i
      simp
    rw [List.length_cons, List.range_succ_eq_map, List.filterMap_cons,
      List.filterMap_map, hcomp, ih]
    simp

theorem handleStatus_perm_configSnapshot (h : Handler) (arrival : List Nat)
    (ha : arrival.Perm (List.range h.printers.length)) :
    (handleStatus h arrival).Perm (configSnapshot h) := by
  have hp := ha.filterMap fun i => (h.printers[i]?).map fun p => (fetchPrinterStatus h p).1
  have hr := filterMap_getElem_range h.printers fun p => (fetchPrinterStatus h p).1
  rw [handleStatus, configSnapshot, ← hr]
  exact hp

/-! ### Helper lemma: the job step depends only on the job endpoint and base URL -/

theorem jobStep_congr (c₁ c₂ : Client) (s : PrinterStatus)
    (hb : c₁.baseURL = c₂.baseURL) (hje : c₁.jobEndpoint = c₂.jobEndpoint) :
    jobStep c₁ s = jobStep c₂ s := by
  have ht : ∀ path, c₁.GetThumbnail path = c₂.GetThumbnail path := by
    intro path
    rw [Client.GetThumbnail, Client.GetThumbnail, hb]
  rw [jobStep, jobStep, Client.GetJob, Client.GetJob, hje]
  cases c₂.jobEndpoint with
  | error e => rfl
  | ok jobResp => simp only [ht]

/-! ### The claims -/

/-- C1 counterexample: with two configured printers and the second
goroutine's send arriving first (a legitimate completion order), the
snapshot is not in configuration order — the code appends in
channel-arrival order and never sorts. -/
theorem poll_not_config_order :
    ([1, 0] : List Nat).Perm (List.range hTwo.printers.length) ∧
    handleStatus hTwo [1, 0] ≠ configSnapshot hTwo := by
  exact ⟨by decide, by decide⟩

/-- C1 (amended): for every configuration of N printers and every
channel-arrival order, `Poll` returns exactly N records, one per configured
printer — the snapshot is a permutation of the configuration-order record
list — but the records appear in channel-arrival (completion) order, not
necessarily configuration order. -/
theorem poll_one_record_per_printer (h : Handler) (arrival : List Nat)
    (ha : arrival.Perm (List.range h.printers.length)) :
    (handleStatus h arrival).length = h.printers.length ∧
    (handleStatus h arrival).Perm (configSnapshot h) := by
  have hp := handleStatus_perm_configSnapshot h arrival ha
  refine ⟨hp.length_eq.trans ?_, hp⟩
  rw [configSnapshot, List.length_map]

/-- Witness for C1's amended theorem at a concrete handler and arrival
order. -/
theorem poll_one_record_per_printer_witness :
    ([1, 0] : List Nat).Perm (List.range hTwo.printers.length) ∧
    (handleStatus hTwo [1, 0]).length = hTwo.printers.length ∧
    (handleStatus hTwo [1, 0]).Perm (configSnapshot hTwo) := by
  refine ⟨by decide, ?_, ?_⟩
  · exact (poll_one_record_per_printer hTwo [1, 0] (by decide)).1
  · exact (poll_one_record_per_printer hTwo [1, 0] (by decide)).2

/-- C2: status classification evaluates the raw flags in fixed priority
order, first match wins: printing → "printing" (even when the error flag is
also set), else ready → "idle", else error → "error", else "offline" — for
every combination of the raw flags. -/
theorem classification_priority (f : Flags) :
    (f.printing = true → classifyStatus f = "printing") ∧
    (f.printing = false → f.ready = true → classifyStatus f = "idle") ∧
    (f.printing = false → f.ready = false → f.error = true →
      classifyStatus f = "error") ∧
    (f.printing = false → f.ready = false → f.error = false →
      classifyStatus f = "offline") := by
  rcases f with ⟨op, pa, pr, er, re⟩
  cases pr <;> cases re <;> cases er <;> simp [classifyStatus]

/-- Witness for C2 at concrete flag combinations, including the
printing-and-error tie-break. -/
theorem classification_priority_witness :
    classifyStatus
        { operational := true, paused := false, printing := true,
          error := true, ready := false } = "printing" ∧
    classifyStatus
        { operational := true, paused := false, printing := false,
          error := true, ready := false } = "error" :=
  ⟨(classification_priority _).1 rfl,
   (classification_priority _).2.2.1 rfl rfl rfl⟩

/-- C3: when the mandatory state fetch fails with the (non-empty) Go error
string e, the record has status "offline", that non-empty error, and no
progress or temperature block, and neither the job fetch nor the spool
fetch is attempted. -/
theorem state_failure_offline (h : Handler) (p : Printer) (client : Client)
    (e : String) (hc : h.octoprintClients p.id = some client)
    (he : client.GetPrinterState = .error e) (hne : e ≠ "") :
    (fetchPrinterStatus h p).1.status = "offline" ∧
    (fetchPrinterStatus h p).1.error = e ∧
    (fetchPrinterStatus h p).1.error ≠ "" ∧
    (fetchPrinterStatus h p).1.progress = none ∧
    (fetchPrinterStatus h p).1.temperatures = none ∧
    (fetchPrinterStatus h p).2 = [UpstreamCall.getPrinterState] := by
  rw [fetchPrinterStatus_of_state_error h p client e hc he]
  exact ⟨rfl, rfl, hne, rfl, rfl, rfl⟩

/-- Witness for C3 at a concrete unreachable printer. -/
theorem state_failure_offline_witness :
    ("connection refused" : String) ≠ "" ∧
    (fetchPrinterStatus hDown printerA).1.status = "offline" ∧
    (fetchPrinterStatus hDown printerA).1.error ≠ "" ∧
    (fetchPrinterStatus hDown printerA).2 = [UpstreamCall.getPrinterState] := by
  have h := state_failure_offline hDown printerA clientDown
    ("connection refused") rfl rfl (by decide)
  exact ⟨by decide, h.1, h.2.2.1, h.2.2.2.2.2⟩

/-- C4 counterexample: a configured printer with no client mapping does not
abort the poll — the call still produces a complete one-record snapshot
whose record has status "offline" and the error "No client configured". -/
theorem missing_client_produces_snapshot :
    handleStatus hMissing [0] =
      [offlineRecord
        { id := "ghost", name := "Ghost", octoPrintURL := "http://ghost", apiKey := "k" }
        ("No client configured")] ∧
    (handleStatus hMissing [0]).length = hMissing.printers.length := by
  exact ⟨by decide, by decide⟩

/-- C4 (amended): a missing client mapping for a configured printer does
not abort `Poll`; the printer's pipeline returns immediately with a record
carrying status "offline", the error "No client configured", no optional
blocks, and no upstream round trip. -/
theorem missing_client_offline_record (h : Handler) (p : Printer)
    (hc : h.octoprintClients p.id = none) :
    fetchPrinterStatus h p = (offlineRecord p ("No client configured"), []) :=
  fetchPrinterStatus_of_no_client h p hc

/-- Witness for C4's amended theorem at a concrete handler. -/
theorem missing_client_offline_record_witness :
    fetchPrinterStatus hMissing
        { id := "ghost", name := "Ghost", octoPrintURL := "http://ghost", apiKey := "k" } =
      (offlineRecord
        { id := "ghost", name := "Ghost", octoPrintURL := "http://ghost", apiKey := "k" }
        ("No client configured"), []) :=
  missing_client_offline_record hMissing _ rfl

/-- C5 counterexample: two poll calls against identical upstream state but
different channel-arrival orders yield different snapshots, so `Poll` is
not a deterministic function of the configuration and upstream responses
alone. -/
theorem poll_not_deterministic :
    ([0, 1] : List Nat).Perm (List.range hTwo.printers.length) ∧
    ([1, 0] : List Nat).Perm (List.range hTwo.printers.length) ∧
    handleStatus hTwo [0, 1] ≠ handleStatus hTwo [1, 0] := by
  exact ⟨by decide, by decide, by decide⟩

/-- C5 (amended): two poll calls against identical upstream responses
yield snapshots containing exactly the same records (each is a permutation
of the other), and identical snapshots whenever the channel-arrival orders
coincide; only the record order can differ between the two calls. -/
theorem poll_snapshots_same_records (h : Handler) (a₁ a₂ : List Nat)
    (h₁ : a₁.Perm (List.range h.printers.length))
    (h₂ : a₂.Perm (List.range h.printers.length)) :
    (handleStatus h a₁).Perm (handleStatus h a₂) ∧
    (a₁ = a₂ → handleStatus h a₁ = handleStatus h a₂) := by
  refine ⟨(handleStatus_perm_configSnapshot h a₁ h₁).trans
    (handleStatus_perm_configSnapshot h a₂ h₂).symm, fun he => by rw [he]⟩

/-- Witness for C5's amended theorem at a concrete handler and two arrival
orders. -/
theorem poll_snapshots_same_records_witness :
    (handleStatus hTwo [0, 1]).Perm (handleStatus hTwo [1, 0]) :=
  (poll_snapshots_same_records hTwo [0, 1] [1, 0] (by decide) (by decide)).1

/-- C6: the job fetch is attempted only when the classified status is
"printing"; and when a printing printer's job fetch fails, the record
still has status "printing" and a temperature block but no progress block,
and the pipeline continues to the spool step instead of failing. -/
theorem job_failure_keeps_printing (h : Handler) (p : Printer) :
    (∀ client resp e, h.octoprintClients p.id = some client →
      client.GetPrinterState = .ok resp → resp.state.flags.printing = true →
      client.GetJob = .error e →
      (fetchPrinterStatus h p).1.status = "printing" ∧
      ((fetchPrinterStatus h p).1.temperatures).isSome = true ∧
      (fetchPrinterStatus h p).1.progress = none ∧
      UpstreamCall.getCurrentSpool 0 ∈ (fetchPrinterStatus h p).2) ∧
    (UpstreamCall.getJob ∈ (fetchPrinterStatus h p).2 →
      ∃ client resp, h.octoprintClients p.id = some client ∧
        client.GetPrinterState = .ok resp ∧
        resp.state.flags.printing = true) := by
  constructor
  · intro client resp e hc hs hpr hj
    have hst : (statusAfterState p resp).status = "printing" :=
      (classifyStatus_eq_printing_iff resp.state.flags).2 hpr
    have hjs : jobStep client (statusAfterState p resp) =
        (statusAfterState p resp, [UpstreamCall.getJob]) :=
      jobStep_of_error client (statusAfterState p resp) e hst hj
    have hfst : (fetchPrinterStatus h p).1 =
        (spoolStep h client (statusAfterState p resp)).1 := by
      rw [fetchPrinterStatus_of_state_ok h p client resp hc hs, hjs]
    have hv := spoolStep_nonSpoolView h client (statusAfterState p resp)
    simp only [nonSpoolView, Prod.mk.injEq] at hv
    obtain ⟨-, -, -, hstat, -, hprog, htemp, -, -⟩ := hv
    refine ⟨?_, ?_, ?_, ?_⟩
    · rw [hfst, hstat, hst]
    · rw [hfst, htemp]
      rfl
    · rw [hfst, hprog]
      rfl
    · rw [fetchPrinterStatus_of_state_ok h p client resp hc hs]
      exact List.mem_cons_of_mem _
        (List.mem_append_right _ (getCurrentSpool_mem_spoolStep h client _))
  · intro hmem
    cases hoc : h.octoprintClients p.id with
    | none =>
      rw [fetchPrinterStatus_of_no_client h p hoc] at hmem
      simp at hmem
    | some client =>
      cases hgs : client.GetPrinterState with
      | error e =>
        rw [fetchPrinterStatus_of_state_error h p client e hoc hgs] at hmem
        simp at hmem
      | ok resp =>
        refine ⟨client, resp, rfl, hgs, ?_⟩
        rw [fetchPrinterStatus_of_state_ok h p client resp hoc hgs] at hmem
        have hnot : UpstreamCall.getJob ∉
            (spoolStep h client (jobStep client (statusAfterState p resp)).1).2 := by
          rcases spoolStep_calls_shape h client (jobStep client (statusAfterState p resp)).1
            with hsh | ⟨sid, hsh⟩ <;> rw [hsh] <;> simp
        have hjmem : UpstreamCall.getJob ∈
            (jobStep client (statusAfterState p resp)).2 := by
          rcases List.mem_cons.1 hmem with hbad | hmem2
          · exact absurd hbad (by decide)
          · rcases List.mem_append.1 hmem2 with hj2 | hs2
            · exact hj2
            · exact absurd hs2 hnot
        have hrun := status_printing_of_getJob_mem client (statusAfterState p resp) hjmem
        exact (classifyStatus_eq_printing_iff resp.state.flags).1 hrun

/-- Witness for C6 at a concrete printing printer with a failing job
fetch. -/
theorem job_failure_keeps_printing_witness :
    (fetchPrinterStatus hJobDown printerB).1.status = "printing" ∧
    ((fetchPrinterStatus hJobDown printerB).1.temperatures).isSome = true ∧
    (fetchPrinterStatus hJobDown printerB).1.progress = none ∧
    UpstreamCall.getCurrentSpool 0 ∈ (fetchPrinterStatus hJobDown printerB).2 := by
  have h := (job_failure_keeps_printing hJobDown printerB).1 clientJobDown respPrinting
    ("HTTP 500: job unavailable") rfl rfl (by decide) rfl
  exact ⟨h.1, h.2.1, h.2.2.1, h.2.2.2⟩

/-- C7: the spool steps never affect any other field — every non-spool
field of the record is independent of the spool endpoints, hence on spool
failure equal to what it would have been had the spool steps succeeded;
the spool-identifier fetch is always attempted for tool 0 once the state
fetch succeeded, regardless of printing state; and failure of the
identifier fetch or of the inventory lookup yields a record with no spool
block (and never aborts the pipeline). -/
theorem spool_failure_frame (h₁ h₂ : Handler) (p : Printer) (c₁ c₂ : Client)
    (hc₁ : h₁.octoprintClients p.id = some c₁)
    (hc₂ : h₂.octoprintClients p.id = some c₂)
    (hb : c₁.baseURL = c₂.baseURL)
    (hpe : c₁.printerEndpoint = c₂.printerEndpoint)
    (hje : c₁.jobEndpoint = c₂.jobEndpoint) :
    nonSpoolView (fetchPrinterStatus h₁ p).1 = nonSpoolView (fetchPrinterStatus h₂ p).1 ∧
    (∀ resp, c₁.GetPrinterState = .ok resp →
      UpstreamCall.getCurrentSpool 0 ∈ (fetchPrinterStatus h₁ p).2) ∧
    (∀ e, c₁.GetCurrentSpool 0 = .error e →
      (fetchPrinterStatus h₁ p).1.currentSpool = none) ∧
    (∀ sid, c₁.GetCurrentSpool 0 = .ok sid →
      (∀ sp, h₁.spoolmanClient.GetSpool sid ≠ .ok (some sp)) →
      (fetchPrinterStatus h₁ p).1.currentSpool = none) := by
  have hs2 : c₂.GetPrinterState = c₁.GetPrinterState := by
    rw [Client.GetPrinterState, Client.GetPrinterState, hpe]
  refine ⟨?_, ?_, ?_, ?_⟩
  · cases hgs : c₁.GetPrinterState with
    | error e =>
      rw [fetchPrinterStatus_of_state_error h₁ p c₁ e hc₁ hgs,
          fetchPrinterStatus_of_state_error h₂ p c₂ e hc₂ (hs2.trans hgs)]
    | ok resp =>
      rw [fetchPrinterStatus_of_state_ok h₁ p c₁ resp hc₁ hgs,
          fetchPrinterStatus_of_state_ok h₂ p c₂ resp hc₂ (hs2.trans hgs)]
      rw [spoolStep_nonSpoolView, spoolStep_nonSpoolView,
          jobStep_congr c₁ c₂ (statusAfterState p resp) hb hje]
  · intro resp hgs
    rw [fetchPrinterStatus_of_state_ok h₁ p c₁ resp hc₁ hgs]
    exact List.mem_cons_of_mem _
      (List.mem_append_right _ (getCurrentSpool_mem_spoolStep h₁ c₁ _))
  · intro e hcs
    cases hgs : c₁.GetPrinterState with
    | error e2 =>
      rw [fetchPrinterStatus_of_state_error h₁ p c₁ e2 hc₁ hgs]
      rfl
    | ok resp =>
      rw [fetchPrinterStatus_of_state_ok h₁ p c₁ resp hc₁ hgs,
          spoolStep_of_error h₁ c₁ _ e hcs]
      have hjv := jobStep_nonJobView c₁ (statusAfterState p resp)
      simp only [nonJobView, Prod.mk.injEq] at hjv
      obtain ⟨-, -, -, -, -, -, hcur, -⟩ := hjv
      exact hcur
  · intro sid hcs hnores
    cases hgs : c₁.GetPrinterState with
    | error e2 =>
      rw [fetchPrinterStatus_of_state_error h₁ p c₁ e2 hc₁ hgs]
      rfl
    | ok resp =>
      rw [fetchPrinterStatus_of_state_ok h₁ p c₁ resp hc₁ hgs]
      have hjv := jobStep_nonJobView c₁ (statusAfterState p resp)
      simp only [nonJobView, Prod.mk.injEq] at hjv
      obtain ⟨-, -, -, -, -, -, hcur, -⟩ := hjv
      by_cases hsid : sid = ""
      · subst hsid
        rw [spoolStep_of_empty_id h₁ c₁ _ hcs]
        exact hcur
      · rw [spoolStep_of_lookup_failure h₁ c₁
          (jobStep c₁ (statusAfterState p resp)).1 sid hcs hsid hnores]
        exact hcur

/-- Witness for C7: an idle printer with failing spool resolution versus
the same printer with the spool steps succeeding — all non-spool fields
coincide, and the identifier fetch is attempted while idle. -/
theorem spool_failure_frame_witness :
    nonSpoolView (fetchPrinterStatus hIdle printerC).1 =
      nonSpoolView (fetchPrinterStatus hIdleSpool printerC).1 ∧
    UpstreamCall.getCurrentSpool 0 ∈ (fetchPrinterStatus hIdle printerC).2 := by
  have h := spool_failure_frame hIdle hIdleSpool printerC clientIdle clientIdleSpoolOk
    rfl rfl rfl rfl rfl
  exact ⟨h.1, h.2.1 respIdle rfl⟩

/-- C8 counterexample: on the path "a.bgcode.gcode" the code strips both
extensions in sequence (".gcode" first, then ".bgcode"), so the result is
not the template applied to the singly-stripped path that the claim
describes for every non-empty path. -/
theorem thumbnail_double_strip :
    clientDown.GetThumbnail ("a.bgcode.gcode") =
      "http://printer-a/plugin/prusaslicerthumbnails/thumbnail/a.png" ∧
    specThumbnail clientDown ("a.bgcode.gcode") =
      "http://printer-a/plugin/prusaslicerthumbnails/thumbnail/a.bgcode.png" ∧
    clientDown.GetThumbnail ("a.bgcode.gcode") ≠
      specThumbnail clientDown ("a.bgcode.gcode") := by
  exact ⟨by decide, by decide, by decide⟩

/-- C8 (amended): thumbnail derivation is a pure, total string function;
the empty path yields the empty string, and every non-empty path that does
not end in ".bgcode.gcode" has a single trailing ".gcode" or ".bgcode"
extension stripped before substitution into the template (a path ending in
".bgcode.gcode" loses both extensions, ".gcode" first and then
".bgcode"). -/
theorem thumbnail_single_strip (c : Client) (path : String)
    (hne : path ≠ "") (hdb : hasSuffix path (".bgcode.gcode") = false) :
    c.GetThumbnail ("") = "" ∧ c.GetThumbnail path = specThumbnail c path := by
  refine ⟨rfl, ?_⟩
  have key : trimSuffix (trimSuffix path (".gcode")) (".bgcode") =
      (if hasSuffix path (".gcode") = true then trimSuffix path (".gcode")
       else trimSuffix path (".bgcode")) := by
    by_cases hg : hasSuffix path (".gcode") = true
    · rw [if_pos hg]
      obtain ⟨t, ht⟩ := (hasSuffix_true_iff path (".gcode")).1 hg
      have h1 : trimSuffix path (".gcode") = ⟨t⟩ :=
        trimSuffix_of_append t (".gcode") path ht
      rw [h1]
      apply trimSuffix_of_not_suffix
      cases hb2 : hasSuffix (⟨t⟩ : String) (".bgcode") with
      | false => rfl
      | true =>
        obtain ⟨u, hu⟩ := (hasSuffix_true_iff (⟨t⟩ : String) (".bgcode")).1 hb2
        have ht2 : path.data = u ++ (".bgcode.gcode" : String).data := by
          rw [ht]
          have htu : t = u ++ (".bgcode" : String).data := hu
          rw [htu, List.append_assoc]
          congr 1
        have hcontr : hasSuffix path (".bgcode.gcode") = true :=
          (hasSuffix_true_iff path (".bgcode.gcode")).2 ⟨u, ht2⟩
        rw [hdb] at hcontr
        exact Bool.noConfusion hcontr
    · have hg' : hasSuffix path (".gcode") = false := by
        cases hx : hasSuffix path (".gcode") with
        | false => rfl
        | true => exact absurd hx hg
      rw [if_neg hg, trimSuffix_of_not_suffix path (".gcode") hg']
  simp only [Client.GetThumbnail, specThumbnail, if_neg hne]
  rw [key]

/-- Witness for C8's amended theorem at the spec's own example path. -/
theorem thumbnail_single_strip_witness :
    clientDown.GetThumbnail ("foo/bar.gcode") =
      specThumbnail clientDown ("foo/bar.gcode") :=
  (thumbnail_single_strip clientDown ("foo/bar.gcode") (by decide) (by decide)).2

/-- C9: for every printer and every pipeline outcome (success, state-fetch
failure, missing client mapping, job or spool failure) the record's id,
name, and base-URL fields equal the configured values of that printer. -/
theorem record_identity_fields (h : Handler) (p : Printer) :
    (fetchPrinterStatus h p).1.id = p.id ∧
    (fetchPrinterStatus h p).1.name = p.name ∧
    (fetchPrinterStatus h p).1.octoPrintURL = p.octoPrintURL := by
  cases hoc : h.octoprintClients p.id with
  | none =>
    rw [fetchPrinterStatus_of_no_client h p hoc]
    exact ⟨rfl, rfl, rfl⟩
  | some client =>
    cases hgs : client.GetPrinterState with
    | error e =>
      rw [fetchPrinterStatus_of_state_error h p client e hoc hgs]
      exact ⟨rfl, rfl, rfl⟩
    | ok resp =>
      rw [fetchPrinterStatus_of_state_ok h p client resp hoc hgs]
      have hv := spoolStep_nonSpoolView h client (jobStep client (statusAfterState p resp)).1
      simp only [nonSpoolView, Prod.mk.injEq] at hv
      obtain ⟨hid, hname, hurl, -, -, -, -, -, -⟩ := hv
      have hjv := jobStep_nonJobView client (statusAfterState p resp)
      simp only [nonJobView, Prod.mk.injEq] at hjv
      obtain ⟨hid2, hname2, hurl2, -, -, -, -, -⟩ := hjv
      exact ⟨hid.trans hid2, hname.trans hname2, hurl.trans hurl2⟩

/-- C10: when the spool-identifier fetch succeeds but returns the empty
identifier, the inventory service is never queried, the record has no
spool block and no error; and GetCurrentSpool itself returns an error
whenever the plugin response carries success=false. -/
theorem empty_spool_id_skips_inventory (h : Handler) (p : Printer) :
    (∀ client resp, h.octoprintClients p.id = some client →
      client.GetPrinterState = .ok resp →
      client.GetCurrentSpool 0 = .ok "" →
      (fetchPrinterStatus h p).1.currentSpool = none ∧
      (fetchPrinterStatus h p).1.error = "" ∧
      ∀ sid, UpstreamCall.getSpool sid ∉ (fetchPrinterStatus h p).2) ∧
    (∀ (c : Client) (tool : Nat) (r : SpoolApiResponse), r.success = false →
      c.spoolmanApiEndpoint tool = .ok r →
      c.GetCurrentSpool tool = .error ("API error: " ++ r.error)) := by
  constructor
  · intro client resp hc hs hcs
    rw [fetchPrinterStatus_of_state_ok h p client resp hc hs,
        spoolStep_of_empty_id h client (jobStep client (statusAfterState p resp)).1 hcs]
    have hjv := jobStep_nonJobView client (statusAfterState p resp)
    simp only [nonJobView, Prod.mk.injEq] at hjv
    obtain ⟨-, -, -, -, -, -, hcur, herr⟩ := hjv
    refine ⟨hcur, herr, ?_⟩
    intro sid
    rcases jobStep_calls_shape client (statusAfterState p resp) with hsh | hsh <;>
      rw [hsh] <;> simp
  · intro c tool r hr hep
    rw [Client.GetCurrentSpool, hep]
    simp [hr]

/-- Witness for C10 at a concrete idle printer reporting an empty spool
identifier, plus a concrete success=false plugin response. -/
theorem empty_spool_id_skips_inventory_witness :
    (fetchPrinterStatus hIdle printerC).1.currentSpool = none ∧
    (fetchPrinterStatus hIdle printerC).1.error = "" ∧
    UpstreamCall.getSpool "7" ∉ (fetchPrinterStatus hIdle printerC).2 ∧
    clientSpoolFalse.GetCurrentSpool 0 = .error ("API error: spool not set") := by
  have h1 := (empty_spool_id_skips_inventory hIdle printerC).1 clientIdle respIdle
    rfl rfl rfl
  have h2 := (empty_spool_id_skips_inventory hIdle printerC).2 clientSpoolFalse 0
    { success := false, spoolID := "", error := "spool not set" } rfl rfl
  exact ⟨h1.1, h1.2.1, h1.2.2 "7", h2⟩
